import Mathlib

/-!
Verification development for the feishu-claudecode bridge.

The definitions below are a shallow embedding of the TypeScript sources:
  * `src/claude/executor.ts` (the `SDKMessage` shape and the
    `StreamProcessor` / `SessionManager` classes bundled in that file),
  * `src/bridge/message-bridge.ts` (`MessageBridge`, `TASK_TIMEOUT_MS`),
  * `src/feishu/card-builder.ts` (`CardStatus`, `CardState`, `ToolCall`).

JavaScript `string | null | undefined` fields become `Option String`
(with `none` standing for both `null` and `undefined`, which the source
treats identically everywhere it checks them); JS string truthiness is
`strTruthy`.  Numeric fields that no claim computes with (`total_cost_usd`,
`duration_ms`) are carried as `Option Nat`.

Two components of the repository are exercised by its test-suite but their
implementation files are not part of the sources at hand: the rate limiter
(`src/bridge/rate-limiter.ts`, tested by the RateLimiter unit tests) and the
interactive-question revision of the stream processor
(`src/claude/stream-processor.ts` / `src/types.ts` with `pendingQuestion`,
`waiting_for_input`, tested by `tests/stream-processor.test.ts` and
`tests/card-builder.test.ts`).  Those two are modelled from the
specification's words and live in the `SpecModel` and `RateLimiterModel`
namespaces; each carries a doc comment starting `Modelled from the spec:`.
-/

/-- JS truthiness of an optional string: `undefined`/`null` and the empty
string are falsy, every other string is truthy. -/
def strTruthy : Option String → Bool
  | none => false
  | some s => decide (s ≠ "")

/-- Rendering of an optional string inside a JS template literal:
`undefined` prints as the string "undefined". -/
def jsTemplate : Option String → String
  | none => "undefined"
  | some s => s

/-- Structured option of an interactive question
(`{label, description}` in the tool input). -/
structure QuestionOption where
  label : String
  description : String
deriving DecidableEq, Repr

/-- Structured interactive question carried in an `AskUserQuestion` tool
input: prompt text, header, options, multi-select flag. -/
structure QuestionItem where
  question : String
  header : String
  options : List QuestionOption
  multiSelect : Bool
deriving DecidableEq, Repr

/-- Duck-typed tool input (`input: unknown` in `executor.ts`).  The source
only ever reads the fields below, so the embedding carries exactly those. -/
structure ToolInput where
  file_path : Option String := none
  command : Option String := none
  pattern : Option String := none
  searchQuery : Option String := none
  url : Option String := none
  description : Option String := none
  questions : Option (List QuestionItem) := none
deriving DecidableEq, Repr

/-- One entry of `message.message.content` in an SDK message
(`executor.ts`, `SDKMessage`). -/
structure ContentBlock where
  type : String
  text : Option String := none
  name : Option String := none
  id : Option String := none
  input : Option ToolInput := none
deriving DecidableEq, Repr

/-- The `message` field of an SDK message. -/
structure MessageBody where
  content : Option (List ContentBlock) := none
deriving DecidableEq, Repr

/-- The `event.delta` field of a stream event. -/
structure EventDelta where
  type : String
  text : Option String := none
deriving DecidableEq, Repr

/-- The `event.content_block` field of a stream event. -/
structure EventContentBlock where
  type : String
  text : Option String := none
  name : Option String := none
  id : Option String := none
deriving DecidableEq, Repr

/-- The `event` field of an SDK message. -/
structure MessageEvent where
  type : String
  index : Option Nat := none
  delta : Option EventDelta := none
  content_block : Option EventContentBlock := none
deriving DecidableEq, Repr

/-- The `SDKMessage` shape of `executor.ts`.  `parent_tool_use_id` is
`none` for both `null` and `undefined` (the source checks
`=== null || === undefined` and treats both as top-level). -/
structure SDKMessage where
  type : String
  subtype : Option String := none
  session_id : Option String := none
  message : Option MessageBody := none
  duration_ms : Option Nat := none
  total_cost_usd : Option Nat := none
  result : Option String := none
  is_error : Option Bool := none
  num_turns : Option Nat := none
  errors : Option (List String) := none
  event : Option MessageEvent := none
  parent_tool_use_id : Option String := none
deriving DecidableEq, Repr

/-- Card status enum.  `card-builder.ts` in the sources declares
`thinking | running | complete | error`; the interactive-question revision
(spec section 3, tests) adds `waiting_for_input`.  The embedding uses the
superset; the stream processor taken from the sources never emits
`waitingForInput`. -/
inductive CardStatus where
  | thinking
  | running
  | waitingForInput
  | complete
  | error
deriving DecidableEq, Repr

/-- Status of one tool-call entry (`'running' | 'done'`). -/
inductive ToolStatus where
  | running
  | done
deriving DecidableEq, Repr

/-- One tool-call entry of the card state (`card-builder.ts`). -/
structure ToolCall where
  name : String
  detail : String
  status : ToolStatus
deriving DecidableEq, Repr

/-- The render-ready snapshot (`CardState` in `card-builder.ts`). -/
structure CardState where
  status : CardStatus
  userPrompt : String
  responseText : String
  toolCalls : List ToolCall
  costUsd : Option Nat := none
  durationMs : Option Nat := none
  errorMessage : Option String := none
deriving DecidableEq, Repr

/-- Image extension set of `stream-processor` (`IMAGE_EXTENSIONS`). -/
def IMAGE_EXTENSIONS : List String :=
  [".png", ".jpg", ".jpeg", ".gif", ".webp", ".bmp", ".svg", ".tiff"]

/-- Index of the last `'.'` in a string, if any
(JS `filePath.lastIndexOf('.')` when it is not `-1`). -/
def lastDotIndex (s : String) : Option Nat :=
  match (s.data.reverse.findIdx? (fun c => c = '.')) with
  | some r => some (s.data.length - 1 - r)
  | none => none

/-- The `isImagePath` helper.  JS `slice(lastIndexOf('.'))` yields the
suffix from the last dot; when there is no dot, `slice(-1)` yields the
last character. -/
def isImagePath (filePath : String) : Bool :=
  let ext :=
    match lastDotIndex filePath with
    | some i => String.mk (filePath.data.drop i)
    | none => String.mk (filePath.data.drop (filePath.data.length - 1))
  IMAGE_EXTENSIONS.contains ext.toLower

/-- The `shortenPath` helper of `stream-processor`. -/
def shortenPath (filePath : String) : String :=
  let parts := filePath.splitOn "/"
  if parts.length ≤ 3 then filePath
  else ".../" ++ String.intercalate "/" (parts.drop (parts.length - 2))

/-- The `truncate` helper of `stream-processor`. -/
def truncate (text : String) (max : Nat) : String :=
  if text.length ≤ max then text
  else String.mk (text.data.take max) ++ "..."

/-- The `formatToolDetail` helper of `stream-processor`: renders the
headline detail for a tool call from its duck-typed input. -/
def formatToolDetail (name : String) (input : Option ToolInput) : String :=
  match input with
  | none => ""
  | some inp =>
    if name = "Read" ∨ name = "Write" ∨ name = "Edit" then
      match inp.file_path with
      | some fp => if fp ≠ "" then "`" ++ shortenPath fp ++ "`" else ""
      | none => ""
    else if name = "Bash" then
      match inp.command with
      | some c => if c ≠ "" then "`" ++ truncate c 60 ++ "`" else ""
      | none => ""
    else if name = "Glob" ∨ name = "Grep" then
      match inp.pattern with
      | some p => if p ≠ "" then "`" ++ p ++ "`" else ""
      | none => ""
    else if name = "WebSearch" then
      match inp.searchQuery with
      | some q => if q ≠ "" then "\"" ++ truncate q 50 ++ "\"" else ""
      | none => ""
    else if name = "WebFetch" then
      match inp.url with
      | some u => if u ≠ "" then "`" ++ truncate u 60 ++ "`" else ""
      | none => ""
    else if name = "Task" then
      match inp.description with
      | some d => if d ≠ "" then d else ""
      | none => ""
    else ""

/-- State of the `StreamProcessor` class from the sources
(`responseText`, `toolCalls`, `currentToolName`, `sessionId`, `costUsd`,
`durationMs`, `_imagePaths`, plus the constructor's `userPrompt`). -/
structure StreamProcessor where
  userPrompt : String
  responseText : String := ""
  toolCalls : List ToolCall := []
  currentToolName : Option String := none
  sessionId : Option String := none
  costUsd : Option Nat := none
  durationMs : Option Nat := none
  imagePaths : List String := []
deriving DecidableEq, Repr

/-- Fresh processor, as built by `new StreamProcessor(userPrompt)`. -/
def StreamProcessor.init (userPrompt : String) : StreamProcessor :=
  { userPrompt := userPrompt }

/-- Set-insertion into the `_imagePaths` set (insertion order kept). -/
def insertPath (l : List String) (x : String) : List String :=
  if l.contains x then l else l ++ [x]

/-- Mark the first running tool call with the given name as done
(`Array.prototype.find` returns the first match). -/
def markFirstRunningDone : List ToolCall → String → List ToolCall
  | [], _ => []
  | t :: ts, n =>
    if t.name = n ∧ t.status = ToolStatus.running then
      { t with status := ToolStatus.done } :: ts
    else t :: markFirstRunningDone ts n

/-- The `completeCurrentTool` method. -/
def StreamProcessor.completeCurrentTool (s : StreamProcessor) : StreamProcessor :=
  match s.currentToolName with
  | none => s
  | some n =>
    { s with toolCalls := markFirstRunningDone s.toolCalls n, currentToolName := none }

/-- The `addToolCall` method: closes the previous tool, appends a running
entry, and tracks image paths written via the Write tool. -/
def StreamProcessor.addToolCall (s : StreamProcessor) (name : String)
    (input : Option ToolInput) : StreamProcessor :=
  let s := s.completeCurrentTool
  let detail := formatToolDetail name input
  let s := { s with
    currentToolName := some name,
    toolCalls := s.toolCalls ++ [⟨name, detail, ToolStatus.running⟩] }
  if name = "Write" then
    match input with
    | some inp =>
      match inp.file_path with
      | some fp =>
        if fp ≠ "" ∧ isImagePath fp then
          { s with imagePaths := insertPath s.imagePaths fp }
        else s
      | none => s
    | none => s
  else s

/-- One content block of an assistant message, folded in order
(the body of the `for` loop in `processAssistantMessage`). -/
def StreamProcessor.processBlock (parent : Option String)
    (s : StreamProcessor) (block : ContentBlock) : StreamProcessor :=
  if block.type = "text" ∧ strTruthy block.text then
    if parent = none then { s with responseText := block.text.getD "" } else s
  else if block.type = "tool_use" ∧ strTruthy block.name then
    s.addToolCall (block.name.getD "") block.input
  else if block.type = "tool_result" then
    s.completeCurrentTool
  else s

/-- The `processAssistantMessage` method. -/
def StreamProcessor.processAssistantMessage (s : StreamProcessor)
    (m : SDKMessage) : StreamProcessor :=
  match m.message with
  | none => s
  | some body =>
    match body.content with
    | none => s
    | some blocks => blocks.foldl (StreamProcessor.processBlock m.parent_tool_use_id) s

/-- The `processStreamEvent` method: only top-level events are applied;
block-start for a tool opens an entry, text deltas append. -/
def StreamProcessor.processStreamEvent (s : StreamProcessor)
    (m : SDKMessage) : StreamProcessor :=
  match m.event with
  | none => s
  | some ev =>
    if m.parent_tool_use_id ≠ none then s
    else if ev.type = "content_block_start" then
      match ev.content_block with
      | some b =>
        if b.type = "tool_use" ∧ strTruthy b.name then
          s.addToolCall (b.name.getD "") none
        else s
      | none => s
    else if ev.type = "content_block_delta" then
      match ev.delta with
      | some d =>
        if d.type = "text_delta" ∧ strTruthy d.text then
          { s with responseText := s.responseText ++ d.text.getD "" }
        else s
      | none => s
    else s

/-- The session-capture prologue of `processMessage`:
`if (message.session_id && !this.sessionId) this.sessionId = ...`. -/
def StreamProcessor.captureSession (s : StreamProcessor)
    (m : SDKMessage) : StreamProcessor :=
  if strTruthy m.session_id ∧ ¬ strTruthy s.sessionId then
    { s with sessionId := m.session_id }
  else s

/-- Non-terminal snapshot built at the end of `processMessage`:
running when a tool is open or any response text accumulated, else
thinking. -/
def StreamProcessor.currentState (s : StreamProcessor) : CardState :=
  let hasActiveTools := s.toolCalls.any fun t => t.status == ToolStatus.running
  let status :=
    if hasActiveTools then CardStatus.running
    else if s.responseText ≠ "" then CardStatus.running
    else CardStatus.thinking
  { status := status
    userPrompt := s.userPrompt
    responseText := s.responseText
    toolCalls := s.toolCalls
    costUsd := s.costUsd
    durationMs := s.durationMs }

/-- The `processResultMessage` method: records cost/duration, force-closes
all tools, and returns the terminal snapshot. -/
def StreamProcessor.processResultMessage (s : StreamProcessor)
    (m : SDKMessage) : StreamProcessor × CardState :=
  let s := { s with
    costUsd := m.total_cost_usd,
    durationMs := m.duration_ms,
    toolCalls := s.toolCalls.map fun t => { t with status := ToolStatus.done } }
  let isError := m.subtype ≠ some "success"
  let joined := String.intercalate "; " (m.errors.getD [])
  let snap : CardState :=
    { status := if isError then CardStatus.error else CardStatus.complete
      userPrompt := s.userPrompt
      responseText := if strTruthy m.result then m.result.getD "" else s.responseText
      toolCalls := s.toolCalls
      costUsd := s.costUsd
      durationMs := s.durationMs
      errorMessage :=
        if isError then
          some (if joined ≠ "" then joined else "Ended with: " ++ jsTemplate m.subtype)
        else none }
  (s, snap)

/-- The `processMessage` method: session capture, dispatch on the message
type, then the derived snapshot (terminal for `result`). -/
def StreamProcessor.processMessage (s : StreamProcessor)
    (m : SDKMessage) : StreamProcessor × CardState :=
  let s := s.captureSession m
  if m.type = "result" then
    s.processResultMessage m
  else
    let s :=
      if m.type = "assistant" then s.processAssistantMessage m
      else if m.type = "stream_event" then s.processStreamEvent m
      else s
    (s, s.currentState)

/-- Fold a whole event sequence, returning the final state and every
emitted snapshot in order. -/
def StreamProcessor.processAll (s : StreamProcessor) :
    List SDKMessage → StreamProcessor × List CardState
  | [] => (s, [])
  | m :: rest =>
    (((s.processMessage m).1.processAll rest).1,
     (s.processMessage m).2 :: ((s.processMessage m).1.processAll rest).2)

namespace SpecModel

/-- Pending interactive question of the card state
(`pendingQuestion: {toolUseId, questions}` in the tested revision). -/
structure PendingQuestion where
  toolUseId : String
  questions : List QuestionItem
deriving DecidableEq, Repr

/-- Card state of the interactive-question revision: the source card state
plus the `pendingQuestion` field (spec section 3, `tests/card-builder.test.ts`). -/
structure QCardState where
  status : CardStatus
  userPrompt : String
  responseText : String
  toolCalls : List ToolCall
  costUsd : Option Nat := none
  durationMs : Option Nat := none
  errorMessage : Option String := none
  pendingQuestion : Option PendingQuestion := none
deriving DecidableEq, Repr

/-- Modelled from the spec: state of the interactive-question revision of
the stream processor (`src/claude/stream-processor.ts` as exercised by
`tests/stream-processor.test.ts`, not among the sources at hand).  It is the
source `StreamProcessor` state plus a `pendingQuestion` slot (spec
sections 3 and 4.1). -/
structure QProcessor where
  base : StreamProcessor
  pendingQuestion : Option PendingQuestion := none
deriving DecidableEq, Repr

/-- Fresh interactive-question processor. -/
def QProcessor.init (userPrompt : String) : QProcessor :=
  { base := StreamProcessor.init userPrompt }

/-- Modelled from the spec: assistant content-block folding of the
interactive-question revision.  Identical to the source fold except that a
tool-use block named `AskUserQuestion` "does not open a generic tool entry;
instead it transitions status to waiting_for_input and populates
pendingQuestion from its structured input, and the invocation identifier is
retained" (spec section 4.1). -/
def QProcessor.processBlock (parent : Option String)
    (s : QProcessor) (block : ContentBlock) : QProcessor :=
  if block.type = "tool_use" ∧ strTruthy block.name then
    if block.name = some "AskUserQuestion" then
      let pq : PendingQuestion :=
        ⟨block.id.getD "", (block.input.bind (fun i => i.questions)).getD []⟩
      { s with pendingQuestion := some pq }
    else { s with base := s.base.addToolCall (block.name.getD "") block.input }
  else { s with base := StreamProcessor.processBlock parent s.base block }

/-- Assistant-message folding of the interactive-question revision. -/
def QProcessor.processAssistantMessage (s : QProcessor)
    (m : SDKMessage) : QProcessor :=
  match m.message with
  | none => s
  | some body =>
    match body.content with
    | none => s
    | some blocks => blocks.foldl (QProcessor.processBlock m.parent_tool_use_id) s

/-- Modelled from the spec: non-terminal status derivation of the
interactive-question revision — "waiting_for_input takes precedence if a
pending question is active; else running if any tool is currently open or
any response text has accumulated; else thinking" (spec section 4.1). -/
def QProcessor.currentState (s : QProcessor) : QCardState :=
  let hasActiveTools := s.base.toolCalls.any fun t => t.status == ToolStatus.running
  let status :=
    if s.pendingQuestion.isSome then CardStatus.waitingForInput
    else if hasActiveTools then CardStatus.running
    else if s.base.responseText ≠ "" then CardStatus.running
    else CardStatus.thinking
  { status := status
    userPrompt := s.base.userPrompt
    responseText := s.base.responseText
    toolCalls := s.base.toolCalls
    costUsd := s.base.costUsd
    durationMs := s.base.durationMs
    pendingQuestion := s.pendingQuestion }

/-- Terminal result handling of the interactive-question revision: as in
the sources, with no pending question on the terminal snapshot. -/
def QProcessor.processResultMessage (s : QProcessor)
    (m : SDKMessage) : QProcessor × QCardState :=
  let r := s.base.processResultMessage m
  ({ s with base := r.1 },
   { status := r.2.status
     userPrompt := r.2.userPrompt
     responseText := r.2.responseText
     toolCalls := r.2.toolCalls
     costUsd := r.2.costUsd
     durationMs := r.2.durationMs
     errorMessage := r.2.errorMessage })

/-- Event dispatch of the interactive-question revision, mirroring the
source `processMessage`. -/
def QProcessor.processMessage (s : QProcessor)
    (m : SDKMessage) : QProcessor × QCardState :=
  let s := { s with base := s.base.captureSession m }
  if m.type = "result" then
    s.processResultMessage m
  else
    let s :=
      if m.type = "assistant" then s.processAssistantMessage m
      else if m.type = "stream_event" then
        { s with base := s.base.processStreamEvent m }
      else s
    (s, s.currentState)

/-- Fold a whole event sequence through the interactive-question revision. -/
def QProcessor.processAll (s : QProcessor) :
    List SDKMessage → QProcessor × List QCardState
  | [] => (s, [])
  | m :: rest =>
    (((s.processMessage m).1.processAll rest).1,
     (s.processMessage m).2 :: ((s.processMessage m).1.processAll rest).2)

end SpecModel

namespace RateLimiterModel

/-- Modelled from the spec: state of the rate limiter
(`src/bridge/rate-limiter.ts`, not among the sources at hand; semantics
from spec section 4.2 and the RateLimiter unit tests).  Thunks are named by
numbers; `executed` records `(time, thunk)` in execution order;
`windowEnd = some e` means an interval window is open until time `e`. -/
structure RLState where
  windowEnd : Option Nat := none
  pending : Option Nat := none
  executed : List (Nat × Nat) := []
deriving DecidableEq, Repr

/-- Idle initial state. -/
def RLState.init : RLState := {}

/-- Modelled from the spec: bring the limiter up to date at time `t` —
"when the window elapses, if a pending thunk exists it executes immediately
and restarts the window; otherwise the limiter goes idle".  At most one
pending thunk can fire per quiescent stretch, after which the restarted
window can only elapse into idleness. -/
def catchUp (w : Nat) (st : RLState) (t : Nat) : RLState :=
  match st.windowEnd with
  | none => st
  | some e =>
    if e ≤ t then
      match st.pending with
      | some id =>
        let executed := st.executed ++ [(e, id)]
        if e + w ≤ t then { windowEnd := none, pending := none, executed := executed }
        else { windowEnd := some (e + w), pending := none, executed := executed }
      | none => { windowEnd := none, pending := none, executed := st.executed }
    else st

/-- Modelled from the spec: `schedule(thunk)` at time `t` — "the first call
in a quiescent period executes its thunk immediately and starts the
interval window.  Calls arriving while a window is open are not executed
immediately; instead the latest such call's thunk is retained as pending
(an earlier pending thunk, if any, is discarded — no queueing)". -/
def RLState.schedule (w : Nat) (st : RLState) (t : Nat) (id : Nat) : RLState :=
  let st := catchUp w st t
  match st.windowEnd with
  | none =>
    { windowEnd := some (t + w), pending := none, executed := st.executed ++ [(t, id)] }
  | some _ => { st with pending := some id }

/-- Modelled from the spec: let the current window elapse and the timer
deliver any retained pending thunk, then go idle. -/
def RLState.drain (st : RLState) : RLState :=
  match st.windowEnd, st.pending with
  | some e, some id =>
    { windowEnd := none, pending := none, executed := st.executed ++ [(e, id)] }
  | _, _ => { windowEnd := none, pending := none, executed := st.executed }

end RateLimiterModel

/-- Session TTL from `session-manager.ts`: 24 hours in milliseconds. -/
def SESSION_TTL_MS : Nat := 24 * 60 * 60 * 1000

/-- One per-key context (`UserSession` in `session-manager.ts`). -/
structure UserSession where
  sessionId : Option String
  workingDirectory : Option String
  lastUsed : Nat
deriving DecidableEq, Repr

/-- State of the `SessionManager` class: the keyed map plus the
process-wide default workspace.  The map is a total function to `Option`;
the periodic cleanup timer is invoked explicitly as `cleanupExpired`. -/
structure SessionManagerState where
  sessions : String → Option UserSession
  defaultWorkingDirectory : Option String

/-- Map update helper for the session store. -/
def SessionManagerState.store (st : SessionManagerState) (k : String)
    (s : UserSession) : SessionManagerState :=
  { st with sessions := fun k' => if k' = k then some s else st.sessions k' }

/-- The `getSession` method: lazily creates a fresh context (no session
handle, default workspace) for an absent key and refreshes `lastUsed`
(`Date.now()`, passed here as `now`) on every access.  Returns the updated
store and the (stored) session. -/
def SessionManagerState.getSession (st : SessionManagerState) (k : String)
    (now : Nat) : SessionManagerState × UserSession :=
  let s : UserSession :=
    match st.sessions k with
    | none =>
      { sessionId := none, workingDirectory := st.defaultWorkingDirectory,
        lastUsed := now }
    | some s => s
  let s := { s with lastUsed := now }
  (st.store k s, s)

/-- The `setSessionId` method. -/
def SessionManagerState.setSessionId (st : SessionManagerState) (k : String)
    (sid : String) (now : Nat) : SessionManagerState :=
  let r := st.getSession k now
  r.1.store k { r.2 with sessionId := some sid }

/-- The `setWorkingDirectory` method: resets the session handle when the
directory changes while a handle exists, then stores the new directory. -/
def SessionManagerState.setWorkingDirectory (st : SessionManagerState)
    (k : String) (dir : String) (now : Nat) : SessionManagerState :=
  let r := st.getSession k now
  let s :=
    if r.2.workingDirectory ≠ some dir ∧ r.2.sessionId.isSome then
      { r.2 with sessionId := none }
    else r.2
  r.1.store k { s with workingDirectory := some dir }

/-- The `resetSession` method: clears the handle of an existing entry,
keeps the working directory; an absent key is left absent.  Note that it
reads the map directly (no `getSession`): it neither inserts nor touches
`lastUsed`. -/
def SessionManagerState.resetSession (st : SessionManagerState)
    (k : String) : SessionManagerState :=
  match st.sessions k with
  | none => st
  | some s => st.store k { s with sessionId := none }

/-- The `hasWorkingDirectory` method (defined via `getSession`, so it also
inserts/refreshes). -/
def SessionManagerState.hasWorkingDirectory (st : SessionManagerState)
    (k : String) (now : Nat) : SessionManagerState × Bool :=
  let r := st.getSession k now
  (r.1, r.2.workingDirectory.isSome)

/-- The `cleanupExpired` sweep: drops every entry whose `lastUsed` is more
than the TTL in the past (JS `now - lastUsed > TTL`; for a `lastUsed` in
the future the JS difference is negative and the entry is kept, matching
truncated `Nat` subtraction). -/
def SessionManagerState.cleanupExpired (st : SessionManagerState)
    (now : Nat) : SessionManagerState :=
  { st with sessions := fun k =>
      match st.sessions k with
      | none => none
      | some s => if now - s.lastUsed > SESSION_TTL_MS then none else some s }

/-- Task timeout from `message-bridge.ts`: `10 * 60 * 1000` milliseconds
(the source comment reads "10 minutes"). -/
def TASK_TIMEOUT_MS : Nat := 10 * 60 * 1000

/-- One `RunningTask` entry (the abort controller is represented only by
the entry's identity; `startTime` is `Date.now()` at admission). -/
structure RunningTask where
  startTime : Nat
deriving DecidableEq, Repr

/-- Shared mutable state of `MessageBridge`: the session manager plus the
`runningTasks` map keyed by user id. -/
structure BridgeState where
  sessions : SessionManagerState
  runningTasks : String → Option RunningTask

/-- Reply sent back by `handleMessage` before/instead of running a task. -/
inductive Reply where
  /-- The message started with `/` and was routed to the command handler
  (whose internals no claim touches). -/
  | commandHandled
  /-- An informational text card `buildTextCard(title, content, color)`. -/
  | info (title content color : String)
  /-- The message was admitted and `executeQuery` begins. -/
  | admitted
deriving DecidableEq, Repr

/-- The command check `text.startsWith('/')`: true exactly when the first
character is a slash. -/
def textIsCommand (text : String) : Bool :=
  match text.data with
  | [] => false
  | ch :: _ => ch = '/'

/-- The `handleMessage` method for the admission decision: commands are
routed away; otherwise the workspace gate and the busy gate each send an
informational orange card and register nothing, and only an admitted
message registers a `RunningTask` (the first action of `executeQuery`). -/
def BridgeState.handleMessage (st : BridgeState) (userId : String)
    (text : String) (now : Nat) : BridgeState × Reply :=
  if textIsCommand text then (st, Reply.commandHandled)
  else
    let r := st.sessions.hasWorkingDirectory userId now
    let st := { st with sessions := r.1 }
    if !r.2 then
      (st, Reply.info "⚠️ Working Directory Not Set"
        "Please set a working directory first:\n`/cd /path/to/your/project`"
        "orange")
    else if (st.runningTasks userId).isSome then
      (st, Reply.info "⏳ Task In Progress"
        "You have a running task. Use `/stop` to abort it, or wait for it to finish."
        "orange")
    else
      ({ st with runningTasks := fun k =>
          if k = userId then some { startTime := now } else st.runningTasks k },
       Reply.admitted)

/-- External outcomes that steer one `executeQuery` run. -/
structure ExecEnv where
  /-- An image key is attached to the incoming message (an `imagePath` is
  then assigned and the download attempted into it). -/
  hasImageKey : Bool
  /-- Whether the image download succeeds (affects only the prompt text). -/
  downloadOk : Bool
  /-- Whether sending the initial "thinking" card returns a message id. -/
  initialSendOk : Bool
  /-- Whether the drive loop raises (stream/backend error). -/
  streamErr : Bool
  /-- Whether the abort signal (user stop or timeout) fires mid-stream. -/
  abortedMidStream : Bool
deriving DecidableEq, Repr

/-- Observable effects of one `executeQuery` run. -/
structure ExecOutcome where
  /-- Delay of the timeout timer armed at admission; its callback aborts
  the task's abort controller. -/
  timerDelay : Nat
  /-- The `runningTasks` entry was removed by the end of the run. -/
  taskRemoved : Bool
  /-- `clearTimeout` was called on the timeout timer. -/
  timerCleared : Bool
  /-- An input image file was staged on disk (`imagePath` assigned). -/
  imageStaged : Bool
  /-- The staged image file was deleted (`fs.unlinkSync` attempted). -/
  imageDeleted : Bool
  /-- A final unconditional render was sent/updated. -/
  finalRenderSent : Bool
deriving DecidableEq, Repr

/-- The `executeQuery` method, abstracted over its external outcomes.  It
registers the task and arms the timeout timer, stages the input image when
an image key is present, then sends the initial card.  When that send fails
it deletes the task entry and clears the timer and returns — before the
`try/finally`, so the staged image is not unlinked on this path.  Every
path through the drive loop (normal completion, stream error, abort or
timeout) ends in the `finally` block, which clears the timer, removes the
entry and unlinks the staged image. -/
def executeQuery (env : ExecEnv) : ExecOutcome :=
  let imageStaged := env.hasImageKey
  if !env.initialSendOk then
    { timerDelay := TASK_TIMEOUT_MS
      taskRemoved := true
      timerCleared := true
      imageStaged := imageStaged
      imageDeleted := false
      finalRenderSent := false }
  else
    { timerDelay := TASK_TIMEOUT_MS
      taskRemoved := true
      timerCleared := true
      imageStaged := imageStaged
      imageDeleted := imageStaged
      finalRenderSent := true }

/-! ### Basic lemmas about the embedded operations -/

theorem strTruthy_some_ne {s : String} (h : strTruthy (some s) = true) : s ≠ "" := by
  simpa [strTruthy] using h

theorem append_ne_empty_left {a b : String} (h : a ≠ "") : a ++ b ≠ "" := by
  intro hab
  apply h
  have hlen : (a ++ b).length = 0 := by rw [hab]; rfl
  rw [String.length_append] at hlen
  have : a.length = 0 := by omega
  exact String.ext (List.length_eq_zero.mp this)

theorem captureSession_responseText (s : StreamProcessor) (m : SDKMessage) :
    (s.captureSession m).responseText = s.responseText := by
  unfold StreamProcessor.captureSession
  split <;> rfl

theorem captureSession_toolCalls (s : StreamProcessor) (m : SDKMessage) :
    (s.captureSession m).toolCalls = s.toolCalls := by
  unfold StreamProcessor.captureSession
  split <;> rfl

theorem completeCurrentTool_responseText (s : StreamProcessor) :
    s.completeCurrentTool.responseText = s.responseText := by
  unfold StreamProcessor.completeCurrentTool
  split <;> rfl

theorem addToolCall_responseText (s : StreamProcessor) (n : String)
    (i : Option ToolInput) : (s.addToolCall n i).responseText = s.responseText := by
  unfold StreamProcessor.addToolCall
  split
  · split
    · split
      · split <;> simp [completeCurrentTool_responseText]
      · simp [completeCurrentTool_responseText]
    · simp [completeCurrentTool_responseText]
  · simp [completeCurrentTool_responseText]

theorem processBlock_responseText_of_parent {p : Option String}
    (hp : p ≠ none) (s : StreamProcessor) (b : ContentBlock) :
    (StreamProcessor.processBlock p s b).responseText = s.responseText := by
  unfold StreamProcessor.processBlock
  repeat' split
  all_goals first
    | rfl
    | exact absurd (by assumption) hp
    | exact addToolCall_responseText _ _ _
    | exact completeCurrentTool_responseText _

theorem processAssistantMessage_responseText_of_parent (s : StreamProcessor)
    (m : SDKMessage) (hp : m.parent_tool_use_id ≠ none) :
    (s.processAssistantMessage m).responseText = s.responseText := by
  unfold StreamProcessor.processAssistantMessage
  split
  · rfl
  · split
    · rfl
    · rename_i body blocks heq
      clear heq
      induction blocks generalizing s with
      | nil => rfl
      | cons b bs ih =>
        rw [List.foldl_cons, ih, processBlock_responseText_of_parent hp]

theorem processStreamEvent_responseText_of_parent (s : StreamProcessor)
    (m : SDKMessage) (hp : m.parent_tool_use_id ≠ none) :
    (s.processStreamEvent m).responseText = s.responseText := by
  unfold StreamProcessor.processStreamEvent
  split
  · rfl
  · rw [if_pos hp]

theorem processBlock_responseText_ne_empty {p : Option String}
    (s : StreamProcessor) (b : ContentBlock) (h : s.responseText ≠ "") :
    (StreamProcessor.processBlock p s b).responseText ≠ "" := by
  unfold StreamProcessor.processBlock
  split
  · rename_i htext
    split
    · match hb : b.text with
      | some t =>
        have := strTruthy_some_ne (hb ▸ htext.2)
        simpa [hb] using this
      | none => rw [hb] at htext; simp [strTruthy] at htext
    · exact h
  · split
    · rw [addToolCall_responseText]; exact h
    · split
      · rw [completeCurrentTool_responseText]; exact h
      · exact h

theorem processAssistantMessage_responseText_ne_empty (s : StreamProcessor)
    (m : SDKMessage) (h : s.responseText ≠ "") :
    (s.processAssistantMessage m).responseText ≠ "" := by
  unfold StreamProcessor.processAssistantMessage
  split
  · exact h
  · split
    · exact h
    · rename_i body blocks heq
      clear heq
      induction blocks generalizing s with
      | nil => exact h
      | cons b bs ih =>
        rw [List.foldl_cons]
        exact ih _ (processBlock_responseText_ne_empty s b h)

theorem processStreamEvent_responseText_ne_empty (s : StreamProcessor)
    (m : SDKMessage) (h : s.responseText ≠ "") :
    (s.processStreamEvent m).responseText ≠ "" := by
  unfold StreamProcessor.processStreamEvent
  repeat' split
  all_goals first
    | exact h
    | (rw [addToolCall_responseText]; exact h)
    | exact append_ne_empty_left h

theorem captureSession_responseText_ne_empty (s : StreamProcessor)
    (m : SDKMessage) (h : s.responseText ≠ "") :
    (s.captureSession m).responseText ≠ "" := by
  rw [captureSession_responseText]; exact h

theorem processMessage_result_eq (s : StreamProcessor) (m : SDKMessage)
    (h : m.type = "result") :
    s.processMessage m = (s.captureSession m).processResultMessage m := by
  unfold StreamProcessor.processMessage
  rw [if_pos h]

theorem processMessage_nonresult_eq (s : StreamProcessor) (m : SDKMessage)
    (h : m.type ≠ "result") :
    s.processMessage m =
      (let s' :=
        if m.type = "assistant" then (s.captureSession m).processAssistantMessage m
        else if m.type = "stream_event" then (s.captureSession m).processStreamEvent m
        else s.captureSession m
       (s', s'.currentState)) := by
  unfold StreamProcessor.processMessage
  rw [if_neg h]

theorem processResultMessage_snd_status (s : StreamProcessor) (m : SDKMessage) :
    (s.processResultMessage m).2.status =
      if m.subtype ≠ some "success" then CardStatus.error else CardStatus.complete := rfl

theorem processResultMessage_snd_errorMessage (s : StreamProcessor) (m : SDKMessage) :
    (s.processResultMessage m).2.errorMessage =
      if m.subtype ≠ some "success" then
        some (if String.intercalate "; " (m.errors.getD []) ≠ ""
              then String.intercalate "; " (m.errors.getD [])
              else "Ended with: " ++ jsTemplate m.subtype)
      else none := rfl

theorem processResultMessage_fst_responseText (s : StreamProcessor) (m : SDKMessage) :
    (s.processResultMessage m).1.responseText = s.responseText := rfl

namespace SpecModel

theorem qProcessMessage_result_eq (s : QProcessor) (m : SDKMessage)
    (h : m.type = "result") :
    s.processMessage m =
      QProcessor.processResultMessage { s with base := s.base.captureSession m } m := by
  unfold QProcessor.processMessage
  rw [if_pos h]

theorem qProcessMessage_nonresult_eq (s : QProcessor) (m : SDKMessage)
    (h : m.type ≠ "result") :
    s.processMessage m =
      (let s' :=
        if m.type = "assistant" then
          QProcessor.processAssistantMessage { s with base := s.base.captureSession m } m
        else if m.type = "stream_event" then
          { s with base := (s.base.captureSession m).processStreamEvent m }
        else { s with base := s.base.captureSession m }
       (s', s'.currentState)) := by
  unfold QProcessor.processMessage
  rw [if_neg h]

theorem qResult_snd_pendingQuestion (s : QProcessor) (m : SDKMessage) :
    (s.processResultMessage m).2.pendingQuestion = none := rfl

theorem qResult_snd_status (s : QProcessor) (m : SDKMessage) :
    (s.processResultMessage m).2.status =
      if m.subtype ≠ some "success" then CardStatus.error else CardStatus.complete := rfl

theorem qResult_fst_responseText (s : QProcessor) (m : SDKMessage) :
    (s.processResultMessage m).1.base.responseText = s.base.responseText := rfl

theorem qCurrentState_pendingQuestion (s : QProcessor) :
    s.currentState.pendingQuestion = s.pendingQuestion := rfl

theorem qCurrentState_status_of_pending (s : QProcessor)
    (h : s.pendingQuestion.isSome = true) :
    s.currentState.status = CardStatus.waitingForInput := by
  unfold QProcessor.currentState
  simp only [h]
  rfl

theorem qCurrentState_status_ne_thinking (s : QProcessor)
    (h : s.base.responseText ≠ "") :
    s.currentState.status ≠ CardStatus.thinking := by
  unfold QProcessor.currentState
  split_ifs <;> simp_all

theorem qProcessBlock_responseText_ne_empty {p : Option String}
    (s : QProcessor) (b : ContentBlock) (h : s.base.responseText ≠ "") :
    (QProcessor.processBlock p s b).base.responseText ≠ "" := by
  unfold QProcessor.processBlock
  repeat' split
  all_goals first
    | exact h
    | (show (StreamProcessor.addToolCall _ _ _).responseText ≠ ""
       rw [addToolCall_responseText]; exact h)
    | exact processBlock_responseText_ne_empty _ _ h

theorem qProcessAssistant_responseText_ne_empty (s : QProcessor)
    (m : SDKMessage) (h : s.base.responseText ≠ "") :
    (s.processAssistantMessage m).base.responseText ≠ "" := by
  unfold QProcessor.processAssistantMessage
  split
  · exact h
  · split
    · exact h
    · rename_i body blocks heq
      clear heq
      induction blocks generalizing s with
      | nil => exact h
      | cons b bs ih =>
        rw [List.foldl_cons]
        exact ih _ (qProcessBlock_responseText_ne_empty s b h)

theorem qProcessMessage_preserves (s : QProcessor) (m : SDKMessage)
    (h : s.base.responseText ≠ "") :
    (s.processMessage m).1.base.responseText ≠ "" ∧
    (s.processMessage m).2.status ≠ CardStatus.thinking := by
  by_cases ht : m.type = "result"
  · rw [qProcessMessage_result_eq s m ht]
    constructor
    · rw [qResult_fst_responseText]
      simpa [captureSession_responseText] using h
    · rw [qResult_snd_status]
      split <;> simp
  · rw [qProcessMessage_nonresult_eq s m ht]
    have hbase : ∀ s' : QProcessor,
        (if m.type = "assistant" then
          QProcessor.processAssistantMessage { s with base := s.base.captureSession m } m
        else if m.type = "stream_event" then
          { s with base := (s.base.captureSession m).processStreamEvent m }
        else { s with base := s.base.captureSession m }).base.responseText ≠ "" := by
      intro _
      have hc : (s.base.captureSession m).responseText ≠ "" := by
        rw [captureSession_responseText]; exact h
      split
      · exact qProcessAssistant_responseText_ne_empty _ m hc
      · split
        · exact processStreamEvent_responseText_ne_empty _ m hc
        · exact hc
    refine ⟨hbase s, ?_⟩
    exact qCurrentState_status_ne_thinking _ (hbase s)

theorem qProcessMessage_pending_status (s : QProcessor) (m : SDKMessage)
    (h : (s.processMessage m).2.pendingQuestion.isSome = true) :
    (s.processMessage m).2.status = CardStatus.waitingForInput := by
  by_cases ht : m.type = "result"
  · rw [qProcessMessage_result_eq s m ht] at h ⊢
    rw [qResult_snd_pendingQuestion] at h
    simp at h
  · rw [qProcessMessage_nonresult_eq s m ht] at h ⊢
    exact qCurrentState_status_of_pending _ (by rw [← qCurrentState_pendingQuestion]; exact h)

end SpecModel

/-! ### Concrete fixtures used by the claim theorems -/

/-- A session store with no entries and no process-default workspace. -/
def emptySessions : SessionManagerState :=
  { sessions := fun _ => none, defaultWorkingDirectory := none }

/-- A bridge with no sessions and no running tasks. -/
def emptyBridge : BridgeState :=
  { sessions := emptySessions, runningTasks := fun _ => none }

/-- A top-level assistant message whose full text is "Hello". -/
def helloMessage : SDKMessage :=
  { type := "assistant", parent_tool_use_id := none,
    message := some ⟨some [{ type := "text", text := some "Hello" }]⟩ }

/-- A stream-delta event belonging to a sub-agent context
(non-null parent-tool marker) carrying the text "ignored". -/
def subagentDelta : SDKMessage :=
  { type := "stream_event", parent_tool_use_id := some "tool-123",
    event := some { type := "content_block_delta",
                    delta := some ⟨"text_delta", some "ignored"⟩ } }

/-- The `AskUserQuestion` tool-use block with invocation id `qid` and
structured questions `qs`. -/
def askBlock (qid : String) (qs : List QuestionItem) : ContentBlock :=
  { type := "tool_use", name := some "AskUserQuestion", id := some qid,
    input := some { questions := some qs } }

/-- An assistant message carrying one `AskUserQuestion` tool-use block with
invocation id `qid` and structured questions `qs`. -/
def askMessage (qid : String) (qs : List QuestionItem) : SDKMessage :=
  { type := "assistant", parent_tool_use_id := none,
    message := some ⟨some [askBlock qid qs]⟩ }

/-- An assistant message opening a `Bash` tool call. -/
def bashToolMessage : SDKMessage :=
  { type := "assistant", parent_tool_use_id := none,
    message := some ⟨some [{ type := "tool_use", name := some "Bash" }]⟩ }

/-- An assistant message carrying a tool-result block (closes the open tool). -/
def toolResultMessage : SDKMessage :=
  { type := "assistant", parent_tool_use_id := none,
    message := some ⟨some [{ type := "tool_result" }]⟩ }

/-- A failing result event reporting the error strings "A" and "B". -/
def resultABMessage : SDKMessage :=
  { type := "result", subtype := some "error", errors := some ["A", "B"] }

/-- A failing result event whose reported error list is the single empty
string. -/
def resultEmptyErrMessage : SDKMessage :=
  { type := "result", subtype := some "error", errors := some [""] }

/-! ### Claim theorems -/

/-- C2: the per-task timeout ceiling.  The claim (and the repository's own
CHANGELOG, which documents a 1-hour limit) says one hour, but the code arms
the cancellation timer with `TASK_TIMEOUT_MS = 10 * 60 * 1000` on every
`executeQuery` run: a task still running ten minutes after admission is
aborted, not after one hour. -/
theorem c2_timeout_is_ten_minutes :
    TASK_TIMEOUT_MS = 600000 ∧ TASK_TIMEOUT_MS ≠ 60 * 60 * 1000 ∧
    ∀ env : ExecEnv, (executeQuery env).timerDelay = TASK_TIMEOUT_MS := by
  refine ⟨rfl, by decide, fun env => ?_⟩
  unfold executeQuery
  split <;> rfl

/-- C5 counterexample: on the early-exit path (an image was staged and the
initial card send fails) the staged input image file is not deleted,
although the claim demands deletion on every termination path. -/
theorem c5_early_exit_leaves_image :
    (executeQuery ⟨true, true, false, false, false⟩).imageStaged = true ∧
    (executeQuery ⟨true, true, false, false, false⟩).imageDeleted = false ∧
    (executeQuery ⟨true, true, false, false, false⟩).taskRemoved = true ∧
    (executeQuery ⟨true, true, false, false, false⟩).timerCleared = true := by
  refine ⟨rfl, rfl, rfl, rfl⟩

/-- C5 (amended): every termination path of `executeQuery` removes the
`RunningTask` entry and clears the timeout timer; the staged input image is
deleted exactly on the paths that reach the drive loop's `finally` block
(initial send succeeded), and is left behind on the early exit when the
initial render cannot be sent. -/
theorem c5_cleanup_paths (env : ExecEnv) :
    (executeQuery env).taskRemoved = true ∧
    (executeQuery env).timerCleared = true ∧
    (env.initialSendOk = true →
      (executeQuery env).imageDeleted = (executeQuery env).imageStaged) ∧
    (env.initialSendOk = false → (executeQuery env).imageDeleted = false) := by
  unfold executeQuery
  cases h : env.initialSendOk <;> simp [h]

/-- C5 witness: on a run with a staged image whose initial send succeeds,
the task entry is removed and the image is deleted. -/
theorem c5_cleanup_paths_witness :
    (executeQuery ⟨true, true, true, false, false⟩).taskRemoved = true ∧
    (executeQuery ⟨true, true, true, false, false⟩).imageDeleted =
      (executeQuery ⟨true, true, true, false, false⟩).imageStaged :=
  ⟨(c5_cleanup_paths _).1, (c5_cleanup_paths _).2.2.1 rfl⟩

/-- C9: for a rate limiter with interval `w`, scheduling `a` then `b` then
`c` within one window executes exactly `a` immediately at its schedule time
and `c` exactly once when the window elapses; `b` is never executed
(the pending slot keeps only the latest thunk). -/
theorem c9_rate_limiter_drops_middle (w t2 t3 a b c : Nat)
    (h2 : t2 ≤ t3) (h3 : t3 < w) (hba : b ≠ a) (hbc : b ≠ c) :
    ((((RateLimiterModel.RLState.init.schedule w 0 a).schedule w t2 b).schedule
        w t3 c).drain).executed = [(0, a), (w, c)] ∧
    b ∉ (((((RateLimiterModel.RLState.init.schedule w 0 a).schedule w t2 b).schedule
        w t3 c).drain).executed.map Prod.snd) := by
  have ht2w : t2 < w := lt_of_le_of_lt h2 h3
  have e1 : RateLimiterModel.RLState.init.schedule w 0 a =
      ⟨some w, none, [(0, a)]⟩ := by
    simp [RateLimiterModel.RLState.schedule, RateLimiterModel.catchUp,
      RateLimiterModel.RLState.init]
  have e2 : (⟨some w, none, [(0, a)]⟩ : RateLimiterModel.RLState).schedule w t2 b =
      ⟨some w, some b, [(0, a)]⟩ := by
    simp [RateLimiterModel.RLState.schedule, RateLimiterModel.catchUp,
      Nat.not_le.mpr ht2w]
  have e3 : (⟨some w, some b, [(0, a)]⟩ : RateLimiterModel.RLState).schedule w t3 c =
      ⟨some w, some c, [(0, a)]⟩ := by
    simp [RateLimiterModel.RLState.schedule, RateLimiterModel.catchUp,
      Nat.not_le.mpr h3]
  have e4 : (⟨some w, some c, [(0, a)]⟩ : RateLimiterModel.RLState).drain =
      ⟨none, none, [(0, a), (w, c)]⟩ := rfl
  rw [e1, e2, e3, e4]
  exact ⟨rfl, by simp [hba, hbc]⟩

/-- C9 witness: interval 1000, schedule thunk 1 at t=0, thunk 2 at t=10,
thunk 3 at t=20; exactly thunk 1 runs at t=0 and thunk 3 at t=1000, and
thunk 2 never runs. -/
theorem c9_rate_limiter_drops_middle_witness :
    ((((RateLimiterModel.RLState.init.schedule 1000 0 1).schedule 1000 10 2).schedule
        1000 20 3).drain).executed = [(0, 1), (1000, 3)] ∧
    2 ∉ (((((RateLimiterModel.RLState.init.schedule 1000 0 1).schedule 1000 10 2).schedule
        1000 20 3).drain).executed.map Prod.snd) :=
  c9_rate_limiter_drops_middle 1000 10 20 1 2 3 (by decide) (by decide)
    (by decide) (by decide)

/-- C7 counterexample: for a failing result event whose reported error list
is the single empty string, the claim's reading (error strings joined with
"; ", here the empty join) predicts an empty error message, but the code's
falsy-join check falls back to the generic ended-with-subtype message. -/
theorem c7_empty_error_string_falls_back :
    ((StreamProcessor.init "hi").processMessage resultEmptyErrMessage).2.errorMessage
      = some "Ended with: error" ∧
    String.intercalate "; " [""] = "" ∧
    ("Ended with: error" : String) ≠ String.intercalate "; " [""] := by
  refine ⟨?_, rfl, by decide⟩
  rw [processMessage_result_eq _ _ rfl, processResultMessage_snd_errorMessage]
  decide

/-- C7 (amended): for every terminal result event, subtype `success` yields
status complete with no error message; any other subtype yields status
error with an error message equal to the reported error strings joined with
"; " whenever that join is non-empty (so errors ["A","B"] give "A; B"),
and the generic "Ended with: <subtype>" fallback whenever the join is empty
(errors absent, the empty list, or a lone empty string). -/
theorem c7_result_error_join (s : StreamProcessor) (m : SDKMessage)
    (h : m.type = "result") :
    (m.subtype = some "success" →
      (s.processMessage m).2.status = CardStatus.complete ∧
      (s.processMessage m).2.errorMessage = none) ∧
    (m.subtype ≠ some "success" →
      (s.processMessage m).2.status = CardStatus.error ∧
      (s.processMessage m).2.errorMessage =
        some (if String.intercalate "; " (m.errors.getD []) ≠ ""
              then String.intercalate "; " (m.errors.getD [])
              else "Ended with: " ++ jsTemplate m.subtype)) := by
  rw [processMessage_result_eq s m h]
  constructor
  · intro hs
    rw [processResultMessage_snd_status, processResultMessage_snd_errorMessage]
    simp [hs]
  · intro hs
    rw [processResultMessage_snd_status, processResultMessage_snd_errorMessage]
    simp [hs]

/-- C7 witness: a failing result event with errors ["A","B"] yields status
error and the error message exactly "A; B". -/
theorem c7_result_error_join_witness :
    ((StreamProcessor.init "hi").processMessage resultABMessage).2.status
      = CardStatus.error ∧
    ((StreamProcessor.init "hi").processMessage resultABMessage).2.errorMessage
      = some "A; B" := by
  have h := (c7_result_error_join (StreamProcessor.init "hi") resultABMessage
    rfl).2 (by decide)
  refine ⟨h.1, ?_⟩
  rw [h.2]
  decide

/-- C6: a top-level message-class event with full text "Hello" sets the
accumulated response text to exactly "Hello" — a wholesale replacement of
whatever had accumulated before — and every subsequent assistant-message or
stream-delta event carrying a non-null parent-tool marker leaves the
accumulated response text unchanged at "Hello". -/
theorem c6_hello_replacement (s : StreamProcessor) (msgs : List SDKMessage)
    (h : ∀ m ∈ msgs,
      (m.type = "assistant" ∨ m.type = "stream_event") ∧
      m.parent_tool_use_id ≠ none) :
    (s.processMessage helloMessage).1.responseText = "Hello" ∧
    ((s.processMessage helloMessage).1.processAll msgs).1.responseText = "Hello" := by
  have hello : ∀ s1 : StreamProcessor,
      (s1.processMessage helloMessage).1.responseText = "Hello" := by
    intro s1
    rw [processMessage_nonresult_eq _ _ (by decide)]
    simp [helloMessage, StreamProcessor.processAssistantMessage,
      StreamProcessor.processBlock, strTruthy]
  have step : ∀ (s1 : StreamProcessor) (m : SDKMessage),
      (m.type = "assistant" ∨ m.type = "stream_event") →
      m.parent_tool_use_id ≠ none →
      (s1.processMessage m).1.responseText = s1.responseText := by
    intro s1 m hty hp
    have hnr : m.type ≠ "result" := by rcases hty with h' | h' <;> simp [h']
    rw [processMessage_nonresult_eq _ _ hnr]
    rcases hty with h' | h'
    · simp only [h', if_pos]
      rw [processAssistantMessage_responseText_of_parent _ _ hp,
        captureSession_responseText]
    · simp only [h', if_true, if_false, String.reduceEq, reduceIte]
      rw [processStreamEvent_responseText_of_parent _ _ hp,
        captureSession_responseText]
  refine ⟨hello s, ?_⟩
  have lift : ∀ (s1 : StreamProcessor), s1.responseText = "Hello" →
      ∀ (ms : List SDKMessage),
      (∀ m ∈ ms, (m.type = "assistant" ∨ m.type = "stream_event") ∧
        m.parent_tool_use_id ≠ none) →
      (s1.processAll ms).1.responseText = "Hello" := by
    intro s1 h1 ms
    induction ms generalizing s1 with
    | nil => intro _; simpa [StreamProcessor.processAll] using h1
    | cons m rest ih =>
      intro hall
      have hm := hall m (List.mem_cons_self m rest)
      have hstep := step s1 m hm.1 hm.2
      simp only [StreamProcessor.processAll]
      exact ih _ (hstep.trans h1) fun m' hm' => hall m' (List.mem_cons_of_mem m hm')
  exact lift _ (hello s) msgs h

/-- C6 witness: starting from a fresh processor, the "Hello" message sets
the text and a following sub-agent stream delta carrying "ignored" leaves
it at "Hello". -/
theorem c6_hello_replacement_witness :
    ((StreamProcessor.init "hi").processMessage helloMessage).1.responseText
      = "Hello" ∧
    (((StreamProcessor.init "hi").processMessage helloMessage).1.processAll
      [subagentDelta]).1.responseText = "Hello" :=
  c6_hello_replacement (StreamProcessor.init "hi") [subagentDelta] (by decide)

/-- C4: a non-command message is rejected with an informational (orange)
card and registers no task when no workspace is set for the key or when a
`RunningTask` entry already exists for the key; in the busy case the
`RunningTask` map, and in particular the already-running task's entry, is
left unchanged. -/
theorem c4_admission_rejection (st : BridgeState) (userId text : String)
    (now : Nat) (hcmd : textIsCommand text = false) :
    ((st.sessions.hasWorkingDirectory userId now).2 = false →
      (st.handleMessage userId text now).2 =
        Reply.info "⚠️ Working Directory Not Set"
          "Please set a working directory first:\n`/cd /path/to/your/project`"
          "orange" ∧
      (st.handleMessage userId text now).1.runningTasks = st.runningTasks) ∧
    (∀ t : RunningTask, (st.sessions.hasWorkingDirectory userId now).2 = true →
      st.runningTasks userId = some t →
      (st.handleMessage userId text now).2 =
        Reply.info "⏳ Task In Progress"
          "You have a running task. Use `/stop` to abort it, or wait for it to finish."
          "orange" ∧
      (st.handleMessage userId text now).1.runningTasks = st.runningTasks ∧
      (st.handleMessage userId text now).1.runningTasks userId = some t) := by
  constructor
  · intro hwd
    unfold BridgeState.handleMessage
    simp [hcmd, hwd]
  · intro t hwd ht
    unfold BridgeState.handleMessage
    simp [hcmd, hwd, ht]

/-- C4 witness: on an empty bridge (no workspace set), the plain message
"hi" is answered with the workspace warning and no task is registered. -/
theorem c4_admission_rejection_witness :
    (emptyBridge.handleMessage "u" "hi" 0).2 =
      Reply.info "⚠️ Working Directory Not Set"
        "Please set a working directory first:\n`/cd /path/to/your/project`"
        "orange" ∧
    (emptyBridge.handleMessage "u" "hi" 0).1.runningTasks "u" = none := by
  have h := (c4_admission_rejection emptyBridge "u" "hi" 0 rfl).1 rfl
  exact ⟨h.1, by rw [h.2]; rfl⟩

/-- C8: `setWorkingDirectory(k, p)` stores `p` as the workspace of `k` and
touches no other key's context; when a session handle exists for `k` and
`p` differs from the stored workspace path the handle is cleared, and when
`p` equals the stored path the handle is preserved (an absent key gets a
fresh context whose workspace is `p`). -/
theorem c8_set_working_directory (st : SessionManagerState) (k p : String)
    (now : Nat) :
    (((st.setWorkingDirectory k p now).sessions k).map
        (fun s => s.workingDirectory) = some (some p)) ∧
    (∀ k', k' ≠ k →
      (st.setWorkingDirectory k p now).sessions k' = st.sessions k') ∧
    (st.sessions k = none →
      (st.setWorkingDirectory k p now).sessions k = some ⟨none, some p, now⟩) ∧
    (∀ s0 : UserSession, st.sessions k = some s0 → s0.workingDirectory = some p →
      ((st.setWorkingDirectory k p now).sessions k).map
        (fun s => s.sessionId) = some s0.sessionId) ∧
    (∀ s0 : UserSession, st.sessions k = some s0 → s0.sessionId.isSome →
      s0.workingDirectory ≠ some p →
      ((st.setWorkingDirectory k p now).sessions k).map
        (fun s => s.sessionId) = some none) := by
  refine ⟨?_, ?_, ?_, ?_, ?_⟩
  · cases hk : st.sessions k
    · simp [SessionManagerState.setWorkingDirectory, SessionManagerState.getSession,
        SessionManagerState.store, hk]
    · simp [SessionManagerState.setWorkingDirectory, SessionManagerState.getSession,
        SessionManagerState.store, hk]
  · intro k' hk'
    cases hk : st.sessions k <;>
      simp [SessionManagerState.setWorkingDirectory, SessionManagerState.getSession,
        SessionManagerState.store, hk, hk']
  · intro hk
    simp [SessionManagerState.setWorkingDirectory, SessionManagerState.getSession,
      SessionManagerState.store, hk]
  · intro s0 hk hwd
    simp [SessionManagerState.setWorkingDirectory, SessionManagerState.getSession,
      SessionManagerState.store, hk, hwd]
  · intro s0 hk hsid hwd
    simp [SessionManagerState.setWorkingDirectory, SessionManagerState.getSession,
      SessionManagerState.store, hk, hwd, hsid]

/-- C8 witness: with a stored context for "u" holding a session handle and
workspace "/a", setting "/a" again preserves the handle, while setting "/b"
clears it; other keys are untouched and the workspace is stored. -/
theorem c8_set_working_directory_witness :
    (let st := emptySessions.store "u" ⟨some "sid", some "/a", 1⟩
     (((st.setWorkingDirectory "u" "/a" 5).sessions "u").map
        (fun s => s.sessionId) = some (some "sid")) ∧
     (((st.setWorkingDirectory "u" "/b" 5).sessions "u").map
        (fun s => s.sessionId) = some none) ∧
     (((st.setWorkingDirectory "u" "/b" 5).sessions "u").map
        (fun s => s.workingDirectory) = some (some "/b")) ∧
     (st.setWorkingDirectory "u" "/b" 5).sessions "v" = st.sessions "v") := by
  refine ⟨?_, ?_, ?_, ?_⟩
  · have h := (c8_set_working_directory (emptySessions.store "u" ⟨some "sid", some "/a", 1⟩)
      "u" "/a" 5).2.2.2.1 ⟨some "sid", some "/a", 1⟩ (by decide) (by decide)
    simpa using h
  · exact (c8_set_working_directory (emptySessions.store "u" ⟨some "sid", some "/a", 1⟩)
      "u" "/b" 5).2.2.2.2 ⟨some "sid", some "/a", 1⟩ (by decide) (by decide) (by decide)
  · exact (c8_set_working_directory (emptySessions.store "u" ⟨some "sid", some "/a", 1⟩)
      "u" "/b" 5).1
  · exact (c8_set_working_directory (emptySessions.store "u" ⟨some "sid", some "/a", 1⟩)
      "u" "/b" 5).2.1 "v" (by decide)

/-- C10 counterexample: `resetSession` is a SessionManager operation that
takes a key, yet it neither inserts a fresh context for an absent key nor
refreshes the existing entry's `lastUsed` timestamp — it only clears the
session handle. -/
theorem c10_reset_session_neither_inserts_nor_refreshes :
    (emptySessions.resetSession "u").sessions "u" = none ∧
    ((emptySessions.store "u" ⟨some "sid", some "/w", 5⟩).resetSession "u").sessions "u"
      = some ⟨none, some "/w", 5⟩ := by
  constructor
  · rfl
  · decide

/-- C10 (amended): `getSession`, `setSessionId`, `setWorkingDirectory` and
`hasWorkingDirectory` each insert a fresh context (no session handle, the
process-default workspace, `lastUsed = now`) when the key is absent and
refresh the entry's `lastUsed` to `now` on every access, so any of these
accesses postpones the key's TTL eviction; `resetSession` does neither — it
leaves an absent key absent and only clears the handle of a present entry,
keeping its `lastUsed`. -/
theorem c10_key_access_refreshes (st : SessionManagerState)
    (k sid p : String) (now : Nat) :
    (st.sessions k = none →
      (st.getSession k now).1.sessions k =
        some ⟨none, st.defaultWorkingDirectory, now⟩) ∧
    (((st.getSession k now).1.sessions k).map (fun s => s.lastUsed) = some now) ∧
    (∀ s0 : UserSession, st.sessions k = some s0 →
      (st.getSession k now).1.sessions k = some { s0 with lastUsed := now }) ∧
    ((st.hasWorkingDirectory k now).1 = (st.getSession k now).1) ∧
    (((st.setSessionId k sid now).sessions k).map (fun s => s.lastUsed) = some now) ∧
    (((st.setWorkingDirectory k p now).sessions k).map (fun s => s.lastUsed) = some now) ∧
    (∀ now', now' ≤ now + SESSION_TTL_MS →
      ((st.getSession k now).1.cleanupExpired now').sessions k ≠ none) ∧
    (st.sessions k = none → (st.resetSession k).sessions k = none) ∧
    (∀ s0 : UserSession, st.sessions k = some s0 →
      (st.resetSession k).sessions k = some ⟨none, s0.workingDirectory, s0.lastUsed⟩) := by
  refine ⟨?_, ?_, ?_, ?_, ?_, ?_, ?_, ?_, ?_⟩
  · intro hk
    simp [SessionManagerState.getSession, SessionManagerState.store, hk]
  · cases hk : st.sessions k <;>
      simp [SessionManagerState.getSession, SessionManagerState.store, hk]
  · intro s0 hk
    simp [SessionManagerState.getSession, SessionManagerState.store, hk]
  · rfl
  · cases hk : st.sessions k <;>
      simp [SessionManagerState.setSessionId, SessionManagerState.getSession,
        SessionManagerState.store, hk]
  · cases hk : st.sessions k
    · simp [SessionManagerState.setWorkingDirectory, SessionManagerState.getSession,
        SessionManagerState.store, hk]
    · simp [SessionManagerState.setWorkingDirectory, SessionManagerState.getSession,
        SessionManagerState.store, hk]
      split <;> rfl
  · intro now' hle
    cases hk : st.sessions k <;>
      simp [SessionManagerState.getSession, SessionManagerState.store,
        SessionManagerState.cleanupExpired, hk] <;>
      omega
  · intro hk
    simp [SessionManagerState.resetSession, hk]
  · intro s0 hk
    simp [SessionManagerState.resetSession, SessionManagerState.store, hk]

/-- C10 witness: on an empty store, `getSession` for "u" at time 7 inserts
the fresh context and a sweep at time `7 + TTL` still keeps it, and the
full conjunction instantiates at concrete arguments. -/
theorem c10_key_access_refreshes_witness :
    ((emptySessions.getSession "u" 7).1.sessions "u" = some ⟨none, none, 7⟩) ∧
    (((emptySessions.getSession "u" 7).1.cleanupExpired (7 + SESSION_TTL_MS)).sessions "u"
      ≠ none) ∧
    ((emptySessions.resetSession "u").sessions "u" = none) := by
  have h := c10_key_access_refreshes emptySessions "u" "sid" "/p" 7
  exact ⟨h.1 rfl, h.2.2.2.2.2.2.1 (7 + SESSION_TTL_MS) (le_refl _), h.2.2.2.2.2.2.2.1 rfl⟩

/-- C1: for any processor state, an assistant message containing an
`AskUserQuestion` tool-use block yields a snapshot with status
waiting_for_input and a pendingQuestion carrying the invocation id and the
structured questions, and no generic tool-call entry is opened for that
invocation (the tool-call list is unchanged in both the state and the
snapshot). -/
theorem c1_ask_user_question (s : SpecModel.QProcessor) (qid : String)
    (qs : List QuestionItem) :
    ((s.processMessage (askMessage qid qs)).2.status = CardStatus.waitingForInput) ∧
    ((s.processMessage (askMessage qid qs)).2.pendingQuestion = some ⟨qid, qs⟩) ∧
    ((s.processMessage (askMessage qid qs)).1.base.toolCalls = s.base.toolCalls) ∧
    ((s.processMessage (askMessage qid qs)).2.toolCalls = s.base.toolCalls) := by
  refine ⟨?_, ?_, ?_, ?_⟩ <;>
    (rw [SpecModel.qProcessMessage_nonresult_eq _ _ (by simp [askMessage])]
     simp [askMessage, askBlock, SpecModel.QProcessor.processAssistantMessage,
       SpecModel.QProcessor.processBlock, SpecModel.QProcessor.currentState,
       strTruthy, captureSession_toolCalls])

/-- C3 counterexample: an assistant message opening a Bash tool followed by
a tool-result closing it yields snapshots running-then-thinking, both with
a tool-call entry present — so after a tool call has appeared, a later
non-terminal snapshot does revert to status thinking. -/
theorem c3_thinking_after_tool_close :
    (((SpecModel.QProcessor.init "hi").processAll
        [bashToolMessage, toolResultMessage]).2.map
      (fun c => (c.status, c.toolCalls.length))) =
      [(CardStatus.running, 1), (CardStatus.thinking, 1)] := by
  decide

/-- C3 (amended): in every fold of the interactive-question processor, any
snapshot whose pendingQuestion is populated has status waiting_for_input,
and once any response text has accumulated no later snapshot has status
thinking; after a tool call alone has appeared and closed with no
accumulated text the status does return to thinking. -/
theorem c3_status_invariants (s : SpecModel.QProcessor) (msgs : List SDKMessage) :
    (∀ snap ∈ (s.processAll msgs).2, snap.pendingQuestion.isSome = true →
      snap.status = CardStatus.waitingForInput) ∧
    (s.base.responseText ≠ "" →
      ∀ snap ∈ (s.processAll msgs).2, snap.status ≠ CardStatus.thinking) := by
  induction msgs generalizing s with
  | nil => simp [SpecModel.QProcessor.processAll]
  | cons m rest ih =>
    constructor
    · intro snap hsnap hpend
      simp only [SpecModel.QProcessor.processAll, List.mem_cons] at hsnap
      rcases hsnap with rfl | hmem
      · exact SpecModel.qProcessMessage_pending_status s m hpend
      · exact (ih ((s.processMessage m).1)).1 snap hmem hpend
    · intro hne snap hsnap
      have hp := SpecModel.qProcessMessage_preserves s m hne
      simp only [SpecModel.QProcessor.processAll, List.mem_cons] at hsnap
      rcases hsnap with rfl | hmem
      · exact hp.2
      · exact (ih ((s.processMessage m).1)).2 hp.1 snap hmem

/-- C3 witness: a processor that has accumulated the text "x" never emits a
thinking snapshot over a system event, and every pending-question snapshot
of the askMessage fold is waiting_for_input. -/
theorem c3_status_invariants_witness :
    ((SpecModel.QProcessor.processAll
        ⟨⟨"hi", "x", [], none, none, none, none, []⟩, none⟩
        [{ type := "system" }]).2.all
      (fun c => c.status != CardStatus.thinking)) = true ∧
    ((SpecModel.QProcessor.processAll ⟨⟨"hi", "", [], none, none, none, none, []⟩, none⟩
        [askMessage "q1" []]).2.all
      (fun c => !c.pendingQuestion.isSome || (c.status == CardStatus.waitingForInput))) = true := by
  constructor
  · have h := (c3_status_invariants
      ⟨⟨"hi", "x", [], none, none, none, none, []⟩, none⟩ [{ type := "system" }]).2
      (by decide)
    rw [List.all_eq_true]
    intro c hc
    simpa using h c hc
  · have h := (c3_status_invariants
      ⟨⟨"hi", "", [], none, none, none, none, []⟩, none⟩ [askMessage "q1" []]).1
    rw [List.all_eq_true]
    intro c hc
    by_cases hpend : c.pendingQuestion.isSome = true
    · simp [hpend, h c hc hpend]
    · simp [Bool.eq_false_iff.mpr hpend]
